import Mathlib

/-
  Verification of the huuwax synchronization/rendering core against its
  natural-language specification.

  The definitions below are a shallow embedding of src/osc.c and
  src/interface.c.  C machine integers are modelled as Int (values stay far
  from overflow in every statement below); C doubles are modelled as
  rational numbers, keeping every definition executable; C truncated
  division and remainder are Int.tdiv and Int.tmod.
  Functions declared in headers that are not part of this repository slice
  (deck.h, cues.h, track.h, layout.h) are modelled from the specification
  and say so in their doc comments.
-/

namespace Huuwax

/-- Track state (track.h is not under src/): the fields read by
src/interface.c and src/osc.c.  overview and ppm are the coarse and fine
amplitude buffers, indexed by sample position, with byte values 0..255. -/
structure Track where
  length : Int
  rate : Int
  beat_interval : ℚ
  importing : Bool
  overview : Int → Int
  ppm : Int → Int

/-- Player state (player.h is not under src/): the fields touched by the
OSC handlers.  position is the playhead in seconds. -/
structure Player where
  pitch : ℚ
  timecode_control : Bool
  position : ℚ

/-- Deck state (deck.h is not under src/): a player, its track, the cue
slots and the active-cue pointer.  The cue store is a total map so that the
embedding can express a write to an out-of-range slot, which in the C code
is an out-of-bounds array access. -/
structure Deck where
  player : Player
  track : Track
  cues : Int → Option ℚ
  activeCue : Int

/-- Modelled from the spec: MAX_CUES comes from cues.h, which is not under
src/.  The spec fixes only that valid cue labels lie in [0, MAX_CUES);
upstream uses 16, and nothing proved below depends on the exact value. -/
def MAX_CUES : Int := 16

/- ---------------------------------------------------------------------
   src/osc.c handlers
   --------------------------------------------------------------------- -/

/-- src/osc.c handler_bpm_get (lines 43-56): no reply when beat_interval
is unset (zero); otherwise reply with rate * 60.0 / beat_interval. -/
def handler_bpm_get (tr : Track) : Option ℚ :=
  if tr.beat_interval = 0 then none
  else some ((tr.rate : ℚ) * 60 / tr.beat_interval)

/-- src/osc.c handler_bpm_set (lines 58-68):
beat_interval := 60.0 * rate / bpm. -/
def handler_bpm_set (bpm : ℚ) (tr : Track) : Track :=
  { tr with beat_interval := 60 * (tr.rate : ℚ) / bpm }

/-- src/osc.c handler_cue (lines 107-119): wire label L is 1-indexed;
after the guard (label < 0 || label > MAX_CUES) the handler calls
deck_cue.  deck_cue is not under src/; the spec describes it as moving the
active-cue pointer without seeking. -/
def handler_cue (L : Int) (de : Deck) : Deck :=
  let label := L - 1
  if label < 0 ∨ label > MAX_CUES then de
  else { de with activeCue := label }

/-- src/osc.c handler_cue_go (lines 121-136): after the same guard, read
the cue slot and seek to it when it is set (CUE_UNSET is modelled as
none). -/
def handler_cue_go (L : Int) (de : Deck) : Deck :=
  let label := L - 1
  if label < 0 ∨ label > MAX_CUES then de
  else match de.cues label with
    | none => de
    | some p => { de with player.position := p }

/-- src/osc.c handler_cue_set (lines 138-157): after the same guard, store
the given position, or the current playhead when the optional second
argument is absent.  cues_set is not under src/; the spec describes it as
storing a position at a label in the fixed-size cue array. -/
def handler_cue_set (L : Int) (arg : Option ℚ) (de : Deck) : Deck :=
  let label := L - 1
  if label < 0 ∨ label > MAX_CUES then de
  else
    let p := match arg with
      | some d => d
      | none => de.player.position
    { de with cues := fun i => if i = label then some p else de.cues i }

/-- src/osc.c handler_cue_unset (lines 175-187): after the same guard,
clear the stored position.  deck_unset_cue is not under src/; the spec
describes it as clearing the slot. -/
def handler_cue_unset (L : Int) (de : Deck) : Deck :=
  let label := L - 1
  if label < 0 ∨ label > MAX_CUES then de
  else { de with cues := fun i => if i = label then none else de.cues i }

/-- src/osc.c handler_pitch (lines 189-202): pl->pitch = p. -/
def handler_pitch (p : ℚ) (de : Deck) : Deck :=
  { de with player.pitch := p }

/-- src/osc.c handler_position_set (lines 238-251): player_seek_to(pl, p),
which positions the playhead at p seconds. -/
def handler_position_set (p : ℚ) (de : Deck) : Deck :=
  { de with player.position := p }

/- ---------------------------------------------------------------------
   C1: effect traces of the OSC handlers with respect to the rig lock
   --------------------------------------------------------------------- -/

/-- Primitive effects visible in an OSC handler body: rig-lock operations,
accesses to shared deck/track state, and remote replies. -/
inductive RigOp
  | lock
  | unlock
  | readDeck
  | writeDeck
  | reply
deriving DecidableEq, BEq

/-- Effect trace of src/osc.c handler_pitch (lines 189-202), transcribed
from its body: the single statement pl->pitch = p writes shared deck
state; the body contains no rig_lock or rig_unlock call (nor does any
other line of src/osc.c). -/
def handler_pitch_ops : List RigOp := [.writeDeck]

/-- Effect trace of src/osc.c handler_position_set (lines 238-251): the
call player_seek_to(pl, p) writes shared deck state; again no rig_lock or
rig_unlock appears in the body. -/
def handler_position_set_ops : List RigOp := [.writeDeck]

/-- Decides whether every shared-state access in a trace happens while the
rig lock is held, starting from d pending acquisitions. -/
def accessesUnderGate : List RigOp → Nat → Bool
  | [], _ => true
  | .lock :: t, d => accessesUnderGate t (d + 1)
  | .unlock :: t, d => accessesUnderGate t (d - 1)
  | .readDeck :: t, d => decide (0 < d) && accessesUnderGate t d
  | .writeDeck :: t, d => decide (0 < d) && accessesUnderGate t d
  | .reply :: t, d => accessesUnderGate t d

/-- A concrete track used to run the handlers on concrete inputs. -/
def testTrack : Track :=
  { length := 441000
    rate := 44100
    beat_interval := 0
    importing := false
    overview := fun _ => 128
    ppm := fun _ => 128 }

/-- A concrete deck used to run the handlers on concrete inputs: pitch 0,
playhead at 0 seconds, every cue slot holding position 1. -/
def testDeck : Deck :=
  { player := { pitch := 0, timecode_control := false, position := 0 }
    track := testTrack
    cues := fun _ => some 1
    activeCue := 0 }

/-- C1: the claim says every remote-control handler acquires the rig lock
before touching deck state.  In src/osc.c no handler does: the OSC server
thread enters a handler holding no lock (depth 0), the traces of
handler_pitch and handler_position_set contain a write to shared deck
state and no lock operation, so the accesses are not under the gate — and
the write is real: handler_pitch changes the deck's pitch from 0 to 2. -/
theorem osc_handler_writes_outside_gate :
    accessesUnderGate handler_pitch_ops 0 = false ∧
    accessesUnderGate handler_position_set_ops 0 = false ∧
    handler_pitch_ops.contains RigOp.writeDeck = true ∧
    handler_position_set_ops.contains RigOp.writeDeck = true ∧
    (handler_pitch 2 testDeck).player.pitch = 2 ∧
    testDeck.player.pitch = 0 :=
  ⟨rfl, rfl, rfl, rfl, rfl, rfl⟩

/- ---------------------------------------------------------------------
   C2: cue label guard
   --------------------------------------------------------------------- -/

/-- C2: the claim says labels with 0-based value outside [0, MAX_CUES) are
silently ignored.  The guard in src/osc.c is (label < 0 || label >
MAX_CUES), which lets label = MAX_CUES through: with wire argument
MAX_CUES + 1, handler_cue_unset clears cue slot MAX_CUES — one past the
last valid slot — instead of being a no-op, and likewise handler_cue moves
the active-cue pointer to MAX_CUES. -/
theorem cue_guard_off_by_one :
    ¬ (0 ≤ MAX_CUES ∧ MAX_CUES < MAX_CUES) ∧
    (handler_cue_unset (MAX_CUES + 1) testDeck).cues MAX_CUES = none ∧
    testDeck.cues MAX_CUES = some 1 ∧
    (handler_cue (MAX_CUES + 1) testDeck).activeCue = MAX_CUES := by
  refine ⟨by decide, ?_, rfl, ?_⟩
  · simp [handler_cue_unset, MAX_CUES, testDeck]
  · simp [handler_cue, MAX_CUES, testDeck]

/- ---------------------------------------------------------------------
   C6: tempo round trip
   --------------------------------------------------------------------- -/

/-- C6: set tempo with bpm b then get tempo replies with exactly b (the
doubles of the C code are modelled as reals, so the round trip is exact
and in particular within floating-point tolerance), provided the sample
rate and b are positive; and whenever beat_interval is unset (zero), get
tempo sends no reply. -/
theorem bpm_round_trip (tr : Track) (b : ℚ) (hr : 0 < tr.rate) (hb : 0 < b) :
    handler_bpm_get (handler_bpm_set b tr) = some b ∧
    (tr.beat_interval = 0 → handler_bpm_get tr = none) := by
  constructor
  · have hr' : (0 : ℚ) < (tr.rate : ℚ) := by exact_mod_cast hr
    have hne : 60 * (tr.rate : ℚ) / b ≠ 0 := by positivity
    simp only [handler_bpm_get, handler_bpm_set, hne, if_false]
    congr 1
    field_simp
    ring
  · intro h
    simp [handler_bpm_get, h]

/-- Concrete instance of the tempo round trip: sample rate 44100, bpm 120,
and the no-reply case on testTrack, whose beat_interval is 0. -/
theorem bpm_round_trip_witness :
    handler_bpm_get (handler_bpm_set 120 testTrack) = some 120 ∧
    (testTrack.beat_interval = 0 → handler_bpm_get testTrack = none) :=
  bpm_round_trip testTrack 120 (by decide) (by norm_num)

/- ---------------------------------------------------------------------
   C7: closeup zoom scale clamping
   --------------------------------------------------------------------- -/

/-- src/interface.c MAX_METER_SCALE (line 95). -/
def MAX_METER_SCALE : Int := 11

/-- src/interface.c handle_key, SDLK_EQUALS / SDLK_PLUS branch (lines
1096-1102): meter_scale is decremented and clamped below at 0. -/
def handle_key_plus (s : Int) : Int :=
  let t := s - 1
  if t < 0 then 0 else t

/-- src/interface.c handle_key, SDLK_MINUS branch (lines 1104-1110):
meter_scale is incremented and clamped above at MAX_METER_SCALE. -/
def handle_key_minus (s : Int) : Int :=
  let t := s + 1
  if t > MAX_METER_SCALE then MAX_METER_SCALE else t

/-- C7: repeatedly pressing + (zoom in) starting from scale 0 leaves the
scale at 0; repeatedly pressing - starting from MAX_METER_SCALE leaves it
at MAX_METER_SCALE; and both key operations keep any scale inside
[0, MAX_METER_SCALE]. -/
theorem meter_scale_clamped :
    (∀ n : Nat, handle_key_plus^[n] 0 = 0) ∧
    (∀ n : Nat, handle_key_minus^[n] MAX_METER_SCALE = MAX_METER_SCALE) ∧
    (∀ s : Int, 0 ≤ s → s ≤ MAX_METER_SCALE →
      0 ≤ handle_key_plus s ∧ handle_key_plus s ≤ MAX_METER_SCALE ∧
      0 ≤ handle_key_minus s ∧ handle_key_minus s ≤ MAX_METER_SCALE) := by
  refine ⟨?_, ?_, ?_⟩
  · intro n
    induction n with
    | zero => rfl
    | succ k ih =>
      rw [Function.iterate_succ_apply, show handle_key_plus 0 = 0 from rfl, ih]
  · intro n
    induction n with
    | zero => rfl
    | succ k ih =>
      rw [Function.iterate_succ_apply,
        show handle_key_minus MAX_METER_SCALE = MAX_METER_SCALE from rfl, ih]
  · intro s h0 h1
    simp only [handle_key_plus, handle_key_minus, MAX_METER_SCALE] at *
    split_ifs <;> omega

/-- Concrete instance of the clamping laws: four presses of + from 0, four
presses of - from the maximum scale, and both operations at scale 5. -/
theorem meter_scale_clamped_witness :
    handle_key_plus^[4] 0 = 0 ∧
    handle_key_minus^[4] MAX_METER_SCALE = MAX_METER_SCALE ∧
    (0 ≤ handle_key_plus 5 ∧ handle_key_plus 5 ≤ MAX_METER_SCALE ∧
     0 ≤ handle_key_minus 5 ∧ handle_key_minus 5 ≤ MAX_METER_SCALE) :=
  ⟨meter_scale_clamped.1 4, meter_scale_clamped.2.1 4,
   meter_scale_clamped.2.2 5 (by decide) (by decide)⟩

/- ---------------------------------------------------------------------
   C8, C9: the redraw timer and the event queue
   --------------------------------------------------------------------- -/

/-- Codes of SDL_USEREVENT posted by src/interface.c (lines 123-125):
EVENT_TICKER, EVENT_QUIT, EVENT_STATUS. -/
inductive UserCode
  | ticker
  | quit
  | status
deriving DecidableEq

/-- Events in the SDL queue as seen by src/interface.c: the user events it
posts itself plus externally generated input events. -/
inductive Ev
  | user (c : UserCode)
  | key
  | resize
  | sdl_quit
deriving DecidableEq

/-- Matches SDL_EVENTMASK(SDL_USEREVENT), the peek mask used by ticker:
true exactly on user events, whatever their user code. -/
def isUser : Ev → Bool
  | .user _ => true
  | _ => false

/-- src/interface.c ticker (lines 1187-1199): peek the queue for any
pending SDL_USEREVENT and push an EVENT_TICKER only when none is
pending. -/
def ticker_fire (q : List Ev) : List Ev :=
  if q.any isUser then q else q ++ [.user .ticker]

/-- src/interface.c status_change (lines 1205-1212): push an EVENT_STATUS
unconditionally. -/
def status_change (q : List Ev) : List Ev := q ++ [.user .status]

/-- src/interface.c interface_stop (lines 1464-1472): push the EVENT_QUIT
shutdown sentinel unconditionally. -/
def push_quit (q : List Ev) : List Ev := q ++ [.user .quit]

/-- Queue operations that can occur between two waits of the render loop:
a timer expiry, a status notification, the shutdown sentinel, externally
generated input events, and the render loop consuming the front event
(SDL_WaitEvent). -/
inductive QOp
  | tick
  | stat
  | quitEv
  | keyIn
  | resizeIn
  | wait

/-- Effect of one queue operation on the pending-event queue. -/
def applyOp (q : List Ev) : QOp → List Ev
  | .tick => ticker_fire q
  | .stat => status_change q
  | .quitEv => push_quit q
  | .keyIn => q ++ [.key]
  | .resizeIn => q ++ [.resize]
  | .wait => q.drop 1

/-- Effect of a sequence of queue operations, oldest first. -/
def applyOps (q : List Ev) (ops : List QOp) : List Ev := ops.foldl applyOp q

/-- Number of pending EVENT_TICKER events in the queue. -/
def tickCount (q : List Ev) : Nat :=
  q.countP (fun e => decide (e = Ev.user .ticker))

/-- C8: tick coalescing.  Starting from any queue holding at most one
pending tick (in particular the empty queue at startup), any interleaving
of timer expiries, status notifications, shutdown, input arrivals and
event consumption leaves at most one pending tick in the queue: the timer
pushes only after peeking that no user event — hence no tick — is
pending. -/
theorem tick_coalescing (ops : List QOp) (q : List Ev)
    (h : tickCount q ≤ 1) : tickCount (applyOps q ops) ≤ 1 := by
  induction ops generalizing q with
  | nil => exact h
  | cons op t ih =>
    show tickCount (applyOps (applyOp q op) t) ≤ 1
    apply ih
    cases op with
    | tick =>
      by_cases hu : q.any isUser
      · simpa [applyOp, ticker_fire, hu] using h
      · have hz : tickCount q = 0 := by
          rw [tickCount, List.countP_eq_zero]
          intro e he hcontra
          have hu' : q.any isUser = false := Bool.eq_false_iff.mpr hu
          have h1 : isUser e = false := by
            rw [List.any_eq_false] at hu'
            exact Bool.eq_false_iff.mpr (hu' e he)
          rw [of_decide_eq_true hcontra] at h1
          simp [isUser] at h1
        have happ : tickCount (q ++ [Ev.user .ticker]) = tickCount q + 1 := by
          simp [tickCount, List.countP_append]
        simp [applyOp, ticker_fire, hu, happ, hz]
    | stat => simpa [applyOp, status_change, tickCount, List.countP_append] using h
    | quitEv => simpa [applyOp, push_quit, tickCount, List.countP_append] using h
    | keyIn => simpa [applyOp, tickCount, List.countP_append] using h
    | resizeIn => simpa [applyOp, tickCount, List.countP_append] using h
    | wait =>
      calc tickCount (q.drop 1) ≤ tickCount q :=
            List.Sublist.countP_le _ (List.drop_sublist 1 q)
        _ ≤ 1 := h

/-- Concrete instance of tick coalescing: three timer expiries and a
status notification starting from the empty queue leave exactly at most
one pending tick. -/
theorem tick_coalescing_witness :
    tickCount (applyOps [] [QOp.tick, QOp.tick, QOp.stat, QOp.tick]) ≤ 1 :=
  tick_coalescing [QOp.tick, QOp.tick, QOp.stat, QOp.tick] [] (by decide)

/-- C9: the ticker's pending check uses the mask SDL_EVENTMASK(
SDL_USEREVENT), which matches every user event kind: whenever any user
event — a tick, a status change, or the quit sentinel — is already
pending, the timer callback pushes nothing at all for that interval. -/
theorem pending_user_event_suppresses_tick (q : List Ev)
    (h : q.any isUser = true) : ticker_fire q = q := by
  simp [ticker_fire, h]

/-- Concrete instance: a pending status-change event alone suppresses the
redraw tick for that timer interval. -/
theorem pending_user_event_suppresses_tick_witness :
    ticker_fire [Ev.user .status] = [Ev.user .status] :=
  pending_user_event_suppresses_tick [Ev.user .status] (by decide)

/- ---------------------------------------------------------------------
   C3: dirty flags across one iteration of the render loop
   --------------------------------------------------------------------- -/

/-- Rectangle in screen units, as in layout.h (not under src/). -/
structure Rect where
  x : Int
  y : Int
  w : Int
  h : Int
deriving DecidableEq

/-- src/interface.c layout constants (lines 82, 87, 90, 91, 98):
STATUS_HEIGHT is DETAIL_FONT_SPACE. -/
def SPACER : Int := 8

/-- src/interface.c PLAYER_HEIGHT (line 87). -/
def PLAYER_HEIGHT : Int := 213

/-- src/interface.c LIBRARY_MIN_WIDTH (line 90). -/
def LIBRARY_MIN_WIDTH : Int := 64

/-- src/interface.c LIBRARY_MIN_HEIGHT (line 91). -/
def LIBRARY_MIN_HEIGHT : Int := 64

/-- src/interface.c STATUS_HEIGHT = DETAIL_FONT_SPACE (lines 68, 98). -/
def STATUS_HEIGHT : Int := 12

/-- Modelled from the spec: layout.h split with a from_top edge spec
divides a rectangle into the sized region at the top edge and the
remainder below it after subtracting the spacer (spec section 4.1; the
output order matches the call sites in src/interface.c). -/
def split_from_top (r : Rect) (n space : Int) : Rect × Rect :=
  (⟨r.x, r.y, r.w, n⟩, ⟨r.x, r.y + n + space, r.w, r.h - n - space⟩)

/-- Modelled from the spec: layout.h split with a from_bottom edge spec
divides a rectangle into the remainder above and the sized region at the
bottom edge, after subtracting the spacer. -/
def split_from_bottom (r : Rect) (n space : Int) : Rect × Rect :=
  (⟨r.x, r.y, r.w, r.h - n - space⟩, ⟨r.x, r.y + r.h - n, r.w, n⟩)

/-- Redrawable regions of the display. -/
inductive Region
  | library
  | status
  | decks
deriving DecidableEq

/-- Dirty flags of interface_main: library_update, status_update,
decks_update. -/
structure Flags where
  library : Bool
  status : Bool
  decks : Bool
deriving DecidableEq

/-- Dirty flag of one region. -/
def Flags.get (f : Flags) : Region → Bool
  | .library => f.library
  | .status => f.status
  | .decks => f.decks

/-- src/interface.c interface_main, the per-iteration layout check, paint
and flag-clear sequence (lines 1303-1348): split the workspace rectangle,
force the dirty flag of a region false when its rectangle violates its
minimum size, paint each still-dirty region in the fixed order library,
status, decks, and clear the flag of each painted region right after
publishing its rectangle.  Returns the flags as they stand when the loop
goes back to waiting, together with the list of regions painted in this
iteration. -/
def iteration_tail (rworkspace : Rect) (f : Flags) : Flags × List Region :=
  let s1 := split_from_bottom rworkspace STATUS_HEIGHT SPACER
  let statusSmall := s1.1.h < 128 ∨ s1.1.w < 0
  let status_update := if statusSmall then false else f.status
  let rtmp := if statusSmall then rworkspace else s1.1
  let s2 := split_from_top rtmp PLAYER_HEIGHT SPACER
  let librarySmall := s2.2.h < LIBRARY_MIN_HEIGHT ∨ s2.2.w < LIBRARY_MIN_WIDTH
  let library_update := if librarySmall then false else f.library
  let rplayers := if librarySmall then rtmp else s2.1
  let decksSmall := rplayers.h < 0 ∨ rplayers.w < 0
  let decks_update := if decksSmall then false else f.decks
  let painted := (if library_update then [Region.library] else []) ++
                 (if status_update then [Region.status] else []) ++
                 (if decks_update then [Region.decks] else [])
  (⟨false, false, false⟩, painted)

/-- Minimum-size failure of each region for a given workspace rectangle,
obtained by expanding the cascaded splits of interface_main: the status
check looks at the area left after removing the status bar, the library
check at the area left after also removing the fixed-height player area,
and the decks check at the player rectangle that results. -/
def region_too_small (ws : Rect) : Region → Bool
  | .status => decide (ws.h - STATUS_HEIGHT - SPACER < 128 ∨ ws.w < 0)
  | .library =>
    let rtmpH := if ws.h - STATUS_HEIGHT - SPACER < 128 ∨ ws.w < 0
      then ws.h else ws.h - STATUS_HEIGHT - SPACER
    decide (rtmpH - PLAYER_HEIGHT - SPACER < LIBRARY_MIN_HEIGHT ∨ ws.w < LIBRARY_MIN_WIDTH)
  | .decks =>
    let rtmpH := if ws.h - STATUS_HEIGHT - SPACER < 128 ∨ ws.w < 0
      then ws.h else ws.h - STATUS_HEIGHT - SPACER
    let rplayersH := if rtmpH - PLAYER_HEIGHT - SPACER < LIBRARY_MIN_HEIGHT ∨ ws.w < LIBRARY_MIN_WIDTH
      then rtmpH else PLAYER_HEIGHT
    decide (rplayersH < 0 ∨ ws.w < 0)

/-- C3: the claim says a region's dirty flag goes from true to false only
immediately after that region has been painted in that iteration, never
without the paint.  Counterexample: in a 200x100 workspace the area left
above the status bar is 80 < 128 high, so the iteration forces the status
flag false and paints nothing at all, yet the status flag was dirty: it
transitions true to false with no paint of the status region. -/
theorem dirty_flag_cleared_without_paint :
    Flags.get ⟨false, true, false⟩ Region.status = true ∧
    (iteration_tail ⟨0, 0, 200, 100⟩ ⟨false, true, false⟩).1.get Region.status = false ∧
    (iteration_tail ⟨0, 0, 200, 100⟩ ⟨false, true, false⟩).2 = [] := by
  decide

/-- C3 amended: across one iteration every dirty flag ends false, and a
region is painted in the iteration exactly when its flag was dirty and its
rectangle did not violate the minimum-size constraint; equivalently, a
dirty flag is cleared without a paint only for a region skipped as too
small, and after a paint otherwise. -/
theorem dirty_flag_cleared_after_paint_or_skip (ws : Rect) (f : Flags) (r : Region) :
    (iteration_tail ws f).1.get r = false ∧
    (r ∈ (iteration_tail ws f).2 ↔
      (f.get r = true ∧ region_too_small ws r = false)) := by
  constructor
  · cases r <;> rfl
  · cases r <;>
      simp only [iteration_tail, region_too_small, split_from_bottom, split_from_top,
        Flags.get, List.mem_append] <;>
      split_ifs <;>
      simp_all

/- ---------------------------------------------------------------------
   C4, C5: the meter renderer
   --------------------------------------------------------------------- -/

/-- RGB colour with byte channels. -/
structure Color where
  r : Nat
  g : Nat
  b : Nat
deriving DecidableEq

/-- src/interface.c background_col (line 151). -/
def background_col : Color := ⟨0, 0, 0⟩

/-- src/interface.c needle_col (line 158). -/
def needle_col : Color := ⟨255, 255, 255⟩

/-- src/interface.c warn_col (line 153). -/
def warn_col : Color := ⟨192, 64, 0⟩

/-- src/interface.c elapsed_col (line 154). -/
def elapsed_col : Color := ⟨0, 32, 255⟩

/-- src/interface.c dim (lines 448-457): right-shift each channel by n.
The same shift is applied inline by the pixel loops through col >> fade. -/
def dim (c : Color) (n : Nat) : Color := ⟨c.r >>> n, c.g >>> n, c.b >>> n⟩

/-- src/interface.c METER_WARNING_TIME (line 113). -/
def METER_WARNING_TIME : Int := 20

/-- src/interface.c draw_overview (lines 567-648): the playhead column
index, computed in 64-bit then truncated division; 0 for a zero-length
track. -/
def overview_current_position (tr : Track) (position w : Int) : Int :=
  if tr.length ≠ 0 then (position * w).tdiv tr.length else 0

/-- src/interface.c draw_overview: the amplitude bar height of column c,
with sp = length * c / w and the rounding guard sp < length. -/
def overview_height (tr : Track) (w h c : Int) : Int :=
  let sp := (tr.length * c).tdiv w
  if sp < tr.length then (tr.overview sp * h).tdiv 256 else 0

/-- src/interface.c draw_overview: base colour and fade of column c
(lines 600-620), including the import dimming and the already-played
fade. -/
def overview_colfade (tr : Track) (position w c : Int) : Color × Nat :=
  let current_position := overview_current_position tr position w
  let cf : Color × Nat :=
    if tr.length = 0 then (background_col, 0)
    else if c = current_position ∨ c = w.tdiv 2 then (needle_col, 1)
    else if position > tr.length - tr.rate * METER_WARNING_TIME then (warn_col, 3)
    else (elapsed_col, 3)
  let col := if tr.importing then dim cf.1 1 else cf.1
  let fade := if c < current_position then 1 else cf.2
  (col, fade)

/-- src/interface.c draw_overview: the colour written at row number row of
column c, row 0 being the top of the rectangle.  The three write loops run
r from h down to 0, writing the two outer bands undimmed and the middle
band dimmed by fade; the write at row number row happens at r = h - row. -/
def overview_pixel (tr : Track) (position w h c row : Int) : Color :=
  let cf := overview_colfade tr position w c
  let height := overview_height tr w h c
  let r := h - row
  if r > (height + h).tdiv 2 then cf.1
  else if r > (h - height).tdiv 2 then dim cf.1 cf.2
  else cf.1

/-- src/interface.c draw_closeup (lines 656-721): the sample position of
column c at zoom scale, sp = position - (position % (1 << scale)) +
((c - w/2) << scale), with C truncated remainder and the shifts written as
multiplication by 2 ^ scale. -/
def closeup_sp (position : Int) (scale : Nat) (w c : Int) : Int :=
  position - Int.tmod position (2 ^ scale) + (c - w.tdiv 2) * 2 ^ scale

/-- src/interface.c draw_closeup: the amplitude bar height for sample
position sp; note the guard is sp > 0, not sp >= 0. -/
def closeup_height (tr : Track) (h sp : Int) : Int :=
  if sp < tr.length ∧ sp > 0 then (tr.ppm sp * h).tdiv 256 else 0

/-- src/interface.c draw_closeup: base colour and fade of column c
(lines 692-698): the centre column is the needle, everything else the
elapsed colour. -/
def closeup_colfade (w c : Int) : Color × Nat :=
  if c = w.tdiv 2 then (needle_col, 1) else (elapsed_col, 3)

/-- src/interface.c draw_closeup: the colour written at row number row of
column c, row 0 being the top.  The two write loops shift by fade * !rev
and fade * rev respectively, reproducing the C arithmetic on the reversed
flag. -/
def closeup_pixel (tr : Track) (position : Int) (scale : Nat) (rev : Bool)
    (w h c row : Int) : Color :=
  let cf := closeup_colfade w c
  let height := closeup_height tr h (closeup_sp position scale w c)
  let r := h - row
  if r > (if rev then h - height else height) then
    dim cf.1 (cf.2 * (if rev then 0 else 1))
  else
    dim cf.1 (cf.2 * (if rev then 1 else 0))

/-- C4's bar-height formula exactly as the claim states it: the height is
fine_amplitude(sp) * h / 256 when sp lies in [0, length), and 0 for every
sp outside [0, length). -/
def spec_closeup_height (tr : Track) (h sp : Int) : Int :=
  if 0 ≤ sp ∧ sp < tr.length then (tr.ppm sp * h).tdiv 256 else 0

/-- C4 amended: the same formula with the half-open interval [0, length)
replaced by the open interval (0, length), matching the code's guard
sp > 0. -/
def spec_closeup_height_amended (tr : Track) (h sp : Int) : Int :=
  if 0 < sp ∧ sp < tr.length then (tr.ppm sp * h).tdiv 256 else 0

/-- C4: the claim's height formula fails at the centre column when the
playhead sits at sample 0: with position 0, scale 0, w = 2, the centre
column c = 1 samples sp = 0, which lies in [0, length) of testTrack, so
the claim predicts fine_amplitude(0) * h / 256 = 128, but the code's guard
sp > 0 yields bar height 0. -/
theorem closeup_height_mismatch_at_zero :
    closeup_sp 0 0 2 1 = 0 ∧
    (0 ≤ (0 : Int) ∧ (0 : Int) < testTrack.length) ∧
    spec_closeup_height testTrack 256 (closeup_sp 0 0 2 1) = 128 ∧
    closeup_height testTrack 256 (closeup_sp 0 0 2 1) = 0 := by
  decide

/-- C4 amended: for a nonnegative playhead position, the code's bar height
for column c equals the spec formula taken over the open interval
(0, length): sp = position - (position mod 2^scale) + (c - w/2) * 2^scale
with the mathematical mod, and height = fine_amplitude(sp) * h / 256 when
0 < sp < length, 0 otherwise (in particular at sp = 0 and for every sp
outside the range). -/
theorem closeup_column_height_amended (tr : Track) (position : Int)
    (scale : Nat) (w c h : Int) (hpos : 0 ≤ position) :
    closeup_height tr h (closeup_sp position scale w c) =
      spec_closeup_height_amended tr h
        (position - position % 2 ^ scale + (c - w.tdiv 2) * 2 ^ scale) := by
  rw [closeup_sp, Int.tmod_eq_emod hpos (by positivity)]
  set sp := position - position % 2 ^ scale + (c - w.tdiv 2) * 2 ^ scale with hsp
  by_cases hc : 0 < sp ∧ sp < tr.length
  · rw [closeup_height, spec_closeup_height_amended, if_pos ⟨hc.2, hc.1⟩, if_pos hc]
  · rw [closeup_height, spec_closeup_height_amended,
      if_neg (fun h2 => hc ⟨h2.2, h2.1⟩), if_neg hc]

/-- Concrete instance of the amended closeup height law at position 5,
scale 1, w = 4, c = 3, h = 100 on testTrack. -/
theorem closeup_column_height_amended_witness :
    closeup_height testTrack 100 (closeup_sp 5 1 4 3) =
      spec_closeup_height_amended testTrack 100
        (5 - 5 % 2 ^ 1 + (3 - Int.tdiv 4 2) * 2 ^ 1) :=
  closeup_column_height_amended testTrack 5 1 4 3 100 (by decide)

/-- A track of zero length, used to run the renderer on concrete
inputs. -/
def zeroTrack : Track :=
  { length := 0
    rate := 44100
    beat_interval := 0
    importing := false
    overview := fun _ => 0
    ppm := fun _ => 0 }

/-- C5: the claim says both meter passes fill pure background for a
zero-length track.  That holds for the overview pass but not for the
closeup pass: on a zero-length track, column 0 of a 2-pixel-wide closeup
is the elapsed colour dimmed by 3 — RGB (0, 4, 31) — not the background
(0, 0, 0). -/
theorem closeup_zero_length_not_background :
    zeroTrack.length = 0 ∧
    closeup_pixel zeroTrack 0 0 false 2 1 0 0 = ⟨0, 4, 31⟩ ∧
    overview_pixel zeroTrack 0 2 1 0 0 = background_col ∧
    (⟨0, 4, 31⟩ : Color) ≠ background_col := by
  decide

/-- C5 amended: for a zero-length track no error occurs and, for every row
of the destination rectangle, the overview pass writes only the background
colour, while the closeup pass writes every pixel of column c in that
column's base colour dimmed by its fade — the needle colour dimmed by 1 at
the centre column, the elapsed colour dimmed by 3 elsewhere — i.e. it
renders a zero-amplitude waveform rather than the background. -/
theorem zero_length_track_fills (tr : Track) (h0 : tr.length = 0)
    (position : Int) (scale : Nat) (rev : Bool) (w h c row : Int)
    (hrow0 : 0 ≤ row) (hrowh : row < h) :
    overview_pixel tr position w h c row = background_col ∧
    closeup_pixel tr position scale rev w h c row =
      dim (closeup_colfade w c).1 (closeup_colfade w c).2 := by
  constructor
  · have hcol : (overview_colfade tr position w c).1 = background_col := by
      simp [overview_colfade, h0, dim, background_col]
    simp only [overview_pixel]
    split_ifs <;> simp [hcol, dim, background_col]
  · have hheight : closeup_height tr h (closeup_sp position scale w c) = 0 := by
      have hne : ¬ (closeup_sp position scale w c < tr.length ∧
          closeup_sp position scale w c > 0) := by
        rw [h0]
        omega
      simp [closeup_height, hne]
    simp only [closeup_pixel, hheight]
    cases rev with
    | false =>
      have hr : h - row > (0 : Int) := by omega
      simp [hr]
    | true =>
      have hr : ¬ (h - row > h) := by omega
      simp [hr]

/-- Concrete instance of the zero-length rendering law on zeroTrack, at
scale 1, reversed fill, w = 3, h = 4, column 2, row 1. -/
theorem zero_length_track_fills_witness :
    overview_pixel zeroTrack 5 3 4 2 1 = background_col ∧
    closeup_pixel zeroTrack 5 1 true 3 4 2 1 =
      dim (closeup_colfade 3 2).1 (closeup_colfade 3 2).2 :=
  zero_length_track_fills zeroTrack rfl 5 1 true 3 4 2 1 (by decide) (by decide)

/- ---------------------------------------------------------------------
   C10: geometry parsing at startup
   --------------------------------------------------------------------- -/

/-- C sscanf whitespace class, as skipped by a %d directive. -/
def isSpaceChar (ch : Char) : Bool :=
  ch == ' ' || ch == '\t' || ch == '\n' || ch == '\r' || ch == '\x0b' || ch == '\x0c'

/-- Result of one %d directive of C sscanf: end of input reached before
any character of the item (input failure), a matching failure, or a
converted integer together with the unconsumed input. -/
inductive ScanInt
  | eofFail
  | matchFail
  | ok (v : Int) (rest : List Char)

/-- Consumes a maximal run of decimal digits, accumulating their value. -/
def digitsToNat : Nat → List Char → Nat × List Char
  | acc, [] => (acc, [])
  | acc, ch :: t =>
    if ch.isDigit then digitsToNat (acc * 10 + (ch.toNat - 48)) t
    else (acc, ch :: t)

/-- Models the %d directive of C sscanf: skip whitespace, then read an
optionally signed decimal integer; reaching the end of the input before
any item character is an input failure, a non-numeric character is a
matching failure. -/
def scan_int (s : List Char) : ScanInt :=
  match s.dropWhile isSpaceChar with
  | [] => .eofFail
  | ch :: t =>
    if ch == '-' then
      match t with
      | d :: _ =>
        if d.isDigit then
          let p := digitsToNat 0 t
          .ok (-(p.1 : Int)) p.2
        else .matchFail
      | [] => .matchFail
    else if ch == '+' then
      match t with
      | d :: _ =>
        if d.isDigit then
          let p := digitsToNat 0 t
          .ok (p.1 : Int) p.2
        else .matchFail
      | [] => .matchFail
    else if ch.isDigit then
      let p := digitsToNat 0 (ch :: t)
      .ok (p.1 : Int) p.2
    else .matchFail

/-- Models a single literal character of a C sscanf format: it must match
the next input character exactly, otherwise matching stops. -/
def scan_lit (ch : Char) (s : List Char) : Option (List Char) :=
  match s with
  | c :: t => if c == ch then some t else none
  | [] => none

/-- Models C sscanf with the fixed format string of parse_geometry,
%dx%d+%d+%d: the first component is sscanf's return value — the number of
successful conversions, or -1 (EOF) on input failure before the first
conversion — and the second lists the converted integers in order, each of
which sscanf has already assigned to its destination when it returns. -/
def sscanf_geometry (s : String) : Int × List Int :=
  match scan_int s.toList with
  | .eofFail => (-1, [])
  | .matchFail => (0, [])
  | .ok w r1 =>
    match scan_lit 'x' r1 with
    | none => (1, [w])
    | some r2 =>
      match scan_int r2 with
      | .eofFail => (1, [w])
      | .matchFail => (1, [w])
      | .ok h r3 =>
        match scan_lit '+' r3 with
        | none => (2, [w, h])
        | some r4 =>
          match scan_int r4 with
          | .eofFail => (2, [w, h])
          | .matchFail => (2, [w, h])
          | .ok x r5 =>
            match scan_lit '+' r5 with
            | none => (3, [w, h, x])
            | some r6 =>
              match scan_int r6 with
              | .eofFail => (3, [w, h, x])
              | .matchFail => (3, [w, h, x])
              | .ok y _ => (4, [w, h, x, y])

/-- src/interface.c DEFAULT_WIDTH (line 72). -/
def DEFAULT_WIDTH : Int := 960

/-- src/interface.c DEFAULT_HEIGHT (line 73). -/
def DEFAULT_HEIGHT : Int := 720

/-- Window size statics of src/interface.c (lines 164-165). -/
structure Geometry where
  width : Int
  height : Int
deriving DecidableEq

/-- src/interface.c parse_geometry (lines 1372-1401): run sscanf on the
geometry string; n = EOF (empty string), n = 2 and n = 4 lead to the
return 0 path (n = 4 additionally exports the window position), every
other n returns -1.  Converted values overwrite the width and height
statics in the order sscanf assigns them. -/
def parse_geometry (s : String) (g : Geometry) : Int × Geometry :=
  let r := sscanf_geometry s
  let g1 : Geometry :=
    match r.2 with
    | [] => g
    | [w] => ⟨w, g.height⟩
    | w :: h :: _ => ⟨w, h⟩
  if r.1 = -1 ∨ r.1 = 2 ∨ r.1 = 4 then (0, g1) else (-1, g1)

/-- src/interface.c interface_start (lines 1410-1417): startup aborts with
the fatal geometry error exactly when parse_geometry returns -1. -/
def interface_start_geometry_fails (geo : String) : Bool :=
  (parse_geometry geo ⟨DEFAULT_WIDTH, DEFAULT_HEIGHT⟩).1 == -1

/-- C10: an empty geometry string is not a configuration error: sscanf
hits end of input before the first conversion and returns EOF,
parse_geometry takes the EOF case and returns 0 with the default 960x720
window size untouched, and interface_start does not take its fatal-error
branch. -/
theorem empty_geometry_is_accepted :
    parse_geometry "" ⟨DEFAULT_WIDTH, DEFAULT_HEIGHT⟩ = (0, ⟨960, 720⟩) ∧
    sscanf_geometry "" = (-1, []) ∧
    interface_start_geometry_fails "" = false := by
  decide

end Huuwax
